import Mathlib

/-!
# Verification of the CORD transaction-submission core (cord.py)

This development gives a shallow embedding of the Python sources
`packages/network/src/chain/subscriptionPromise.py`,
`packages/network/src/chain/chain.py`,
`packages/network/src/chain/errorHandling/errorHandler.py` and
`packages/config/src/service.py`, and proves (or refutes) the specified
properties of the submission engine against that embedding.

Python's dynamic values are embedded as the inductive type `PyVal`
(dictionaries as association lists), and operations that can raise a
Python exception return `Except PyErr _`.
-/

namespace CordPy

/-- Python exceptions that the embedded code can raise. `invalidState`
is asyncio's `InvalidStateError` (raised by `Future.set_result` /
`Future.set_exception` on a future that is already done);
`typeError` covers both wrong-arity calls and `set_exception` being
handed a non-exception value; `keyError k` is a failed dictionary
subscript `d[k]`; `attributeError a` is an access of a missing
attribute `a` (e.g. `.get` on `None`); the remaining constructors are
the SDK's own error classes from `SDKErrors` / `service.py`. -/
inductive PyErr where
  | invalidState
  | typeError
  | keyError (k : String)
  | attributeError (a : String)
  | timeoutError
  | blockchainApiMissingError
  | genericNotConfiguredError (key : String)
  | subscriptionsNotSupportedError
  deriving Repr, DecidableEq

/-- Embedded Python values: `None`, booleans, strings, exception
objects (class name and message), lists and dictionaries
(association lists keyed by strings, first binding wins as in
`dict` lookup). -/
inductive PyVal where
  | pynone
  | pybool (b : Bool)
  | pystr (s : String)
  | pyexc (cls : String) (msg : String)
  | pylist (xs : List PyVal)
  | pydict (fields : List (String × PyVal))
  deriving Repr

/-- Python truthiness (`bool(v)`): `None` and empty containers are
falsy, exception objects are truthy. -/
def pyTruthy : PyVal → Bool
  | .pynone => false
  | .pybool b => b
  | .pystr s => !s.isEmpty
  | .pyexc _ _ => true
  | .pylist xs => !xs.isEmpty
  | .pydict fs => !fs.isEmpty

/-- `v` is an exception object (acceptable to `Future.set_exception`). -/
def pyIsException : PyVal → Bool
  | .pyexc _ _ => true
  | _ => false

/-- Dictionary subscript `d[key]`: `KeyError` when the key is absent,
`TypeError` when the value is not a dictionary. -/
def getItem (v : PyVal) (key : String) : Except PyErr PyVal :=
  match v with
  | .pydict fs =>
    match fs.lookup key with
    | some x => .ok x
    | none => .error (.keyError key)
  | _ => .error .typeError

/-- Method call `d.get(key, dflt)`: defined on dictionaries only; on
any other value (in particular `None`) the attribute access `.get`
raises `AttributeError`. -/
def pyGet (v : PyVal) (key : String) (dflt : PyVal) : Except PyErr PyVal :=
  match v with
  | .pydict fs => .ok ((fs.lookup key).getD dflt)
  | _ => .error (.attributeError "get")

/-- Python `==` against a string literal: equal only when the value is
a string with the same contents (values of other types compare
unequal to a string). -/
def pyEqStr : PyVal → String → Bool
  | .pystr s, t => s == t
  | _, _ => false

/-! ## subscriptionPromise.py — the resolution arbiter

`make_subscription_promise` creates an `asyncio` future together with a
subscription callback closing over the termination criteria.  The future
is embedded as the state `FutureState` (pending / resolved / rejected),
and the callback as a state transformer.  The reject predicate
`rejectOn` is a Python function returning a truthy error value or a
falsy one; it is embedded as `V → Option E` (`some e` = truthy value
`e`).  The resolve predicate returns a truthy/falsy value, embedded as
`V → Bool`.  Both are pure functions over updates, as the source uses
them. -/

/-- The three states of the `asyncio` future created by
`make_subscription_promise`. -/
inductive FutureState (V E : Type) where
  | pending
  | resolved (v : V)
  | rejected (e : E)
  deriving Repr, DecidableEq

/-- Python `future.done()`. -/
def FutureState.done {V E : Type} : FutureState V E → Bool
  | .pending => false
  | .resolved _ => true
  | .rejected _ => true

/-- `asyncio.Future.set_result`: marks the future resolved, raising
`InvalidStateError` when the future is already done. -/
def set_result {V E : Type} (future : FutureState V E) (v : V) :
    Except PyErr (FutureState V E) :=
  if future.done then .error .invalidState else .ok (.resolved v)

/-- `asyncio.Future.set_exception`: marks the future rejected, raising
`InvalidStateError` when the future is already done.  (At this level
the error value is typed, so the `TypeError` check of `asyncio` on
non-exception arguments cannot fire; the dynamically-typed variant is
`set_exception_dyn` below.) -/
def set_exception {V E : Type} (future : FutureState V E) (e : E) :
    Except PyErr (FutureState V E) :=
  if future.done then .error .invalidState else .ok (.rejected e)

/-- The `termination_options` dictionary read by
`make_subscription_promise`: `resolveOn`, `rejectOn` and `timeout`
(milliseconds, with `termination_options.get` default `0` = absent). -/
structure TerminationOptions (V E : Type) where
  resolveOn : Option (V → Bool)
  rejectOn : Option (V → Option E)
  timeout : Nat

/-- The `subscription` callback defined inside
`make_subscription_promise`:

if `reject_on and reject_on(value)` then (when the future is not done)
`future.set_exception(reject_on(value))`; elif
`resolve_on and resolve_on(value)` then (when the future is not done)
`future.set_result(value)`.  The result is the new future state, or
the Python error the callback raised. -/
def subscription {V E : Type} (opts : TerminationOptions V E)
    (future : FutureState V E) (value : V) :
    Except PyErr (FutureState V E) :=
  match opts.rejectOn.bind (fun reject_on => reject_on value) with
  | some e => if future.done then .ok future else set_exception future e
  | none =>
    if (opts.resolveOn.map (fun resolve_on => resolve_on value)).getD false then
      if future.done then .ok future else set_result future value
    else .ok future

/-- The pure content of `subscription`: the state it leaves the future
in (the callback never raises at this level, see
`subscription_never_raises`). -/
def subscriptionRun {V E : Type} (opts : TerminationOptions V E)
    (future : FutureState V E) (value : V) : FutureState V E :=
  match opts.rejectOn.bind (fun reject_on => reject_on value) with
  | some e => if future.done then future else .rejected e
  | none =>
    if (opts.resolveOn.map (fun resolve_on => resolve_on value)).getD false then
      if future.done then future else .resolved value
    else future

/-- Feeding a list of status updates to the `subscription` callback one
at a time, propagating any Python error the callback raises. -/
def feed_updates {V E : Type} (opts : TerminationOptions V E)
    (future : FutureState V E) : List V → Except PyErr (FutureState V E)
  | [] => .ok future
  | u :: rest => do
    let st ← subscription opts future u
    feed_updates opts st rest

/-- The timer scheduled by `make_subscription_promise` when
`timeout > 0`: `loop.call_later(timeout / 1000, lambda:
future.set_exception(SDKErrors.TimeoutError()))`.  The lambda calls
`set_exception` unguarded, and no handle to the timer is retained, so
nothing ever cancels it. -/
def timer_callback {V E : Type} (timeout_error : E)
    (future : FutureState V E) : Except PyErr (FutureState V E) :=
  set_exception future timeout_error

theorem subscription_never_raises {V E : Type} (opts : TerminationOptions V E)
    (future : FutureState V E) (value : V) :
    subscription opts future value = .ok (subscriptionRun opts future value) := by
  unfold subscription subscriptionRun set_exception set_result
  cases opts.rejectOn.bind (fun reject_on => reject_on value) <;>
    cases h : future.done <;> simp [h] <;> split <;> rfl

theorem subscriptionRun_done {V E : Type} (opts : TerminationOptions V E)
    (future : FutureState V E) (value : V) (h : future.done = true) :
    subscriptionRun opts future value = future := by
  unfold subscriptionRun
  cases opts.rejectOn.bind (fun reject_on => reject_on value) <;> simp [h]

theorem feed_updates_run {V E : Type} (opts : TerminationOptions V E)
    (future : FutureState V E) (updates : List V) :
    feed_updates opts future updates =
      .ok (updates.foldl (subscriptionRun opts) future) := by
  induction updates generalizing future with
  | nil => rfl
  | cons u rest ih =>
    show (do
        let st ← subscription opts future u
        feed_updates opts st rest) = _
    rw [subscription_never_raises]
    exact ih (subscriptionRun opts future u)

theorem foldl_run_done {V E : Type} (opts : TerminationOptions V E)
    (future : FutureState V E) (updates : List V) (h : future.done = true) :
    updates.foldl (subscriptionRun opts) future = future := by
  induction updates with
  | nil => rfl
  | cons u rest ih => simp [List.foldl, subscriptionRun_done opts future u h, ih]

/-- The outcome the specification text ascribes to a whole update
sequence, written from the words of the spec (testable property 1 of
the spec): the outcome equals "the first update for which rejectOn
matches; else the first for which resolveOn matches; else pending"
— i.e. a reject match anywhere in the sequence takes precedence over
any resolve match, regardless of order of arrival.  Named after the
spec, for comparison with the behaviour of the source. -/
def specSequenceOutcome {V E : Type} (opts : TerminationOptions V E)
    (updates : List V) : FutureState V E :=
  match updates.findSome? (fun u => opts.rejectOn.bind (fun reject_on => reject_on u)) with
  | some e => .rejected e
  | none =>
    match updates.find? (fun u => (opts.resolveOn.map (fun resolve_on => resolve_on u)).getD false) with
    | some u => .resolved u
    | none => .pending

/-- The outcome the source actually computes over a sequence: the first
update matched by either predicate decides, with the reject predicate
taking precedence on that one update. -/
def first_match_outcome {V E : Type} (opts : TerminationOptions V E) :
    List V → FutureState V E
  | [] => .pending
  | u :: rest =>
    match opts.rejectOn.bind (fun reject_on => reject_on u) with
    | some e => .rejected e
    | none =>
      if (opts.resolveOn.map (fun resolve_on => resolve_on u)).getD false then
        .resolved u
      else first_match_outcome opts rest

/-- Criteria used as a concrete instance: resolve on update `1`,
reject on update `2` with error value `9`, no timeout. -/
def optsResolveOneRejectTwo : TerminationOptions Nat Nat :=
  { resolveOn := some (fun v => v == 1)
  , rejectOn := some (fun v => if v == 2 then some 9 else none)
  , timeout := 0 }

/-- Criteria used as a concrete instance: every update matches both
predicates, no timeout. -/
def optsMatchAll : TerminationOptions Nat Nat :=
  { resolveOn := some (fun _ => true)
  , rejectOn := some (fun _ => some 7)
  , timeout := 0 }

/-- Criteria used as a concrete instance: no predicates, timeout of
100 milliseconds. -/
def optsTimeoutOnly : TerminationOptions Nat Nat :=
  { resolveOn := none, rejectOn := none, timeout := 100 }

/-- C1 (counterexample). The claimed sequence semantics — reject
matches anywhere take precedence over earlier resolve matches — is
refuted by the source: feeding `[1, 2]` where `1` matches only the
resolve predicate and `2` matches only the reject predicate leaves the
future resolved with `1`, while the claim demands it be rejected with
the error of update `2`. -/
theorem subscription_sequence_order_refuted :
    feed_updates optsResolveOneRejectTwo .pending [1, 2] =
      .ok (.resolved 1)
    ∧ specSequenceOutcome optsResolveOneRejectTwo [1, 2] = .rejected 9
    ∧ (FutureState.resolved 1 : FutureState Nat Nat) ≠ .rejected 9 := by
  refine ⟨rfl, rfl, by decide⟩

/-- C1 (amended). For every termination criteria and every finite
sequence of updates fed one at a time to the subscription callback,
the callback never raises and at most one terminal outcome is
produced: the first update matched by either predicate decides the
outcome — Rejected with the reject predicate value when the reject
predicate matches that update (so when both predicates match the same
update the outcome is Rejected, never Resolved), else Resolved with
that update — and when neither predicate matches any update (and no
timeout is configured) the future remains pending. -/
theorem subscription_feed_first_match {V E : Type}
    (opts : TerminationOptions V E) (updates : List V) :
    feed_updates opts .pending updates =
      .ok (first_match_outcome opts updates) := by
  rw [feed_updates_run]
  induction updates with
  | nil => rfl
  | cons u rest ih =>
    show Except.ok (List.foldl (subscriptionRun opts) (subscriptionRun opts .pending u) rest) = _
    cases hr : opts.rejectOn.bind (fun reject_on => reject_on u) with
    | some e =>
      have h1 : subscriptionRun opts .pending u = .rejected e := by
        unfold subscriptionRun
        rw [hr]
        rfl
      rw [h1, foldl_run_done opts (.rejected e) rest (by rfl)]
      simp only [first_match_outcome, hr]
    | none =>
      by_cases h : (opts.resolveOn.map (fun resolve_on => resolve_on u)).getD false
      · have h1 : subscriptionRun opts .pending u = .resolved u := by
          unfold subscriptionRun
          rw [hr]
          simp [h, FutureState.done]
        rw [h1, foldl_run_done opts (.resolved u) rest (by rfl)]
        simp only [first_match_outcome, hr]
        rw [if_pos h]
      · have h1 : subscriptionRun opts .pending u = .pending := by
          unfold subscriptionRun
          rw [hr]
          simp [h, FutureState.done]
        rw [h1]
        simp only [first_match_outcome, hr]
        rw [if_neg h]
        exact ih

/-- C2. Once the future holds a terminal outcome (resolved or
rejected), invoking the subscription callback with any further status
update is a no-op: the stored outcome is unchanged and the callback
raises no Python error. -/
theorem subscription_noop_after_done {V E : Type}
    (opts : TerminationOptions V E) (future : FutureState V E) (value : V)
    (h : future.done = true) :
    subscription opts future value = .ok future := by
  rw [subscription_never_raises, subscriptionRun_done opts future value h]

/-- C2 witness: a future already resolved with `5` is left unchanged by
an update that matches both predicates. -/
theorem subscription_noop_after_done_instance :
    (FutureState.resolved 5 : FutureState Nat Nat).done = true
    ∧ subscription optsMatchAll (.resolved 5) 2 = .ok (.resolved 5) :=
  ⟨by decide, subscription_noop_after_done optsMatchAll (.resolved 5) 2 (by decide)⟩

/-- C3 (counterexample). The claim that the timeout timer is cancelled
the instant an outcome is produced, so that a later expiry has no
observable effect and raises no error, is refuted: nothing in the
source cancels the timer, and its callback calls
`future.set_exception` unguarded, which on a future already resolved
with `5` raises `InvalidStateError`. -/
theorem timer_after_outcome_raises :
    timer_callback (9 : Nat) (FutureState.resolved (5 : Nat)) =
      .error .invalidState := rfl

/-- C3 (amended). When the configured timeout is positive, the
scheduled timer callback rejects the future with the timeout error
whenever the fed updates have produced no outcome by expiry; the timer
is never cancelled, and when it expires after any outcome exists its
unguarded `set_exception` raises `InvalidStateError`. -/
theorem timeout_timer_behaviour {V E : Type} (opts : TerminationOptions V E)
    (timeout_error : E) (updates : List V) (h : 0 < opts.timeout) :
    (feed_updates opts .pending updates = .ok .pending →
      timer_callback timeout_error
        (first_match_outcome opts updates) = .ok (.rejected timeout_error))
    ∧ (∀ future : FutureState V E, future.done = true →
        timer_callback timeout_error future = .error .invalidState) := by
  constructor
  · intro hfeed
    rw [subscription_feed_first_match] at hfeed
    have : first_match_outcome opts updates = .pending := by
      injection hfeed
    rw [this]
    rfl
  · intro future hdone
    unfold timer_callback set_exception
    rw [if_pos hdone]

/-- C3 witness: with a 100 ms timeout and no matching updates, the
timer rejects a pending future with the timeout error, and raises
`InvalidStateError` on a future already rejected with `9`. -/
theorem timeout_timer_behaviour_instance :
    timer_callback (7 : Nat) (first_match_outcome optsTimeoutOnly [3]) =
      .ok (.rejected 7)
    ∧ timer_callback (7 : Nat) (FutureState.rejected 9 : FutureState Nat Nat) =
      .error .invalidState :=
  ⟨(timeout_timer_behaviour optsTimeoutOnly 7 [3] (by decide)).1 rfl,
   (timeout_timer_behaviour optsTimeoutOnly 7 [3] (by decide)).2 (.rejected 9) (by decide)⟩

/-! ## chain.py — predicates, watchdog and the dynamically-typed callback

`submit_signed_tx` wires concrete, dynamically-typed predicates into the
subscription callback: `resolve_on` defaults to `is_finalized` and
`reject_on` to `lambda result: extrinsic_failed(result) or
is_error(result)`.  These functions subscript the update dictionary and
can therefore raise, so at this level predicates have type
`PyVal → Except PyErr PyVal` and the callback itself is re-read from
the same source lines with raising predicates and the `asyncio` type
check on `set_exception` made explicit (`subscription_dyn`).

Note: `chain.py` calls `make_subscription_promise(opts, resolve_on,
reject_on)` with three arguments although `subscriptionPromise.py`
defines it with a single `termination_options` parameter; the model
wires the intended data flow, with the effective `resolve_on` and
`reject_on` computed in `submit_signed_tx` reaching the callback. -/

/-- `is_error` from chain.py: `result['isError'] or
result['internalError']` (Python `or` returns the left value when it
is truthy, the right value otherwise; either subscript raises
`KeyError` when the key is absent). -/
def is_error (result : PyVal) : Except PyErr PyVal := do
  let a ← getItem result "isError"
  if pyTruthy a then pure a else getItem result "internalError"

/-- `is_finalized` from chain.py: `result['isFinalized']`. -/
def is_finalized (result : PyVal) : Except PyErr PyVal :=
  getItem result "isFinalized"

/-- The loop body of `ErrorHandler.extrinsic_failed`: scans the events
for one with `event['event']['section'] == 'system' and
event['event']['method'] == 'ExtrinsicFailed'` (the conjunction
short-circuits, and `event['event']` is subscripted once per
comparison, as in the source). -/
def extrinsic_failed_list : List PyVal → Except PyErr Bool
  | [] => .ok false
  | ev :: rest => do
    let inner ← getItem ev "event"
    let sec ← getItem inner "section"
    if pyEqStr sec "system" then do
      let inner2 ← getItem ev "event"
      let meth ← getItem inner2 "method"
      if pyEqStr meth "ExtrinsicFailed" then pure true
      else extrinsic_failed_list rest
    else extrinsic_failed_list rest

/-- `ErrorHandler.extrinsic_failed`: iterates
`extrinsic_result['events']` looking for a `system.ExtrinsicFailed`
event. -/
def extrinsic_failed (extrinsic_result : PyVal) : Except PyErr Bool := do
  let evs ← getItem extrinsic_result "events"
  match evs with
  | .pylist xs => extrinsic_failed_list xs
  | _ => .error .typeError

/-- The default `reject_on` of `submit_signed_tx`: `lambda result:
extrinsic_failed(result) or is_error(result)` — the value of the
Python `or`: `True` when the extrinsic failed, otherwise whatever
`is_error` returns. -/
def default_reject_on (result : PyVal) : Except PyErr PyVal := do
  let failed ← extrinsic_failed result
  if failed then pure (.pybool true) else is_error result

/-- `asyncio.Future.set_exception` with its dynamic checks:
`InvalidStateError` on a done future, `TypeError` when the argument is
not an exception object. -/
def set_exception_dyn (future : FutureState PyVal PyVal) (e : PyVal) :
    Except PyErr (FutureState PyVal PyVal) :=
  if future.done then .error .invalidState
  else if pyIsException e then .ok (.rejected e)
  else .error .typeError

/-- The `subscription` callback of `make_subscription_promise` as
executed with the dynamically-typed predicates wired by
`submit_signed_tx` (both predicates present and possibly raising;
`reject_on(value)` is evaluated again for the `set_exception`
argument, as in the source). -/
def subscription_dyn (reject_on resolve_on : PyVal → Except PyErr PyVal)
    (future : FutureState PyVal PyVal) (value : PyVal) :
    Except PyErr (FutureState PyVal PyVal) := do
  let r ← reject_on value
  if pyTruthy r then
    if future.done then pure future
    else do
      let r2 ← reject_on value
      set_exception_dyn future r2
  else do
    let s ← resolve_on value
    if pyTruthy s then
      if future.done then pure future else set_result future value
    else pure future

/-- `handle_disconnect` from `submit_signed_tx`: synthesizes a status
update from the cached `latest_result` — `events` and `status` copied
via `latest_result.get` (with defaults `[]` and `'future'`), an
`internalError` of `Exception('connection error')` and an empty
`txHash`.  When no update was ever observed, `latest_result` is still
`None` and the `.get` attribute access raises. -/
def handle_disconnect (latest_result : PyVal) : Except PyErr PyVal := do
  let evs ← pyGet latest_result "events" (.pylist [])
  let st ← pyGet latest_result "status" (.pystr "future")
  pure (.pydict
    [("events", evs),
     ("internalError", .pyexc "Exception" "connection error"),
     ("status", st),
     ("txHash", .pystr "")])

/-- A cached status update that carries no failure flags: empty events,
status `ready`, a transaction hash, `isError` false and no internal
error. -/
def latestReady : PyVal :=
  .pydict
    [("events", .pylist []),
     ("status", .pystr "ready"),
     ("txHash", .pystr "0xabc"),
     ("isError", .pybool false),
     ("internalError", .pynone)]

/-- A status update whose events contain `system.ExtrinsicFailed` and
which carries no internal or transport error. -/
def updateExtrinsicFailed : PyVal :=
  .pydict
    [("events", .pylist
       [.pydict [("event", .pydict
          [("section", .pystr "system"),
           ("method", .pystr "ExtrinsicFailed")])]]),
     ("isError", .pybool false),
     ("internalError", .pynone),
     ("isFinalized", .pybool false)]

/-- A status update carrying an internal transport error and no failure
events. -/
def updateConnError : PyVal :=
  .pydict
    [("events", .pylist []),
     ("isError", .pybool false),
     ("internalError", .pyexc "Exception" "connection error"),
     ("isFinalized", .pybool false)]

/-- The status string of a synthesized update, for inspecting
`handle_disconnect` results: the contents of a string `status` field
of a successfully returned dictionary, and the empty string
otherwise. -/
def result_status_str : Except PyErr PyVal → String
  | .ok (.pydict fs) =>
    match fs.lookup "status" with
    | some (.pystr s) => s
    | _ => ""
  | _ => ""

theorem pyTruthy_of_isException {e : PyVal} (h : pyIsException e = true) :
    pyTruthy e = true := by
  cases e <;> simp_all [pyIsException, pyTruthy]

/-- C4 (counterexample). The claim that a reject match always yields a
Rejected outcome carrying the error detail held in the matched update
is refuted: on an update whose events contain
`system.ExtrinsicFailed` and which carries no internal error, the
default reject predicate returns `True`, and the callback hands that
boolean to `Future.set_exception`, which raises `TypeError`; no
Rejected outcome carrying the update's error detail is produced. -/
theorem reject_payload_claim_refuted :
    default_reject_on updateExtrinsicFailed = .ok (.pybool true)
    ∧ subscription_dyn default_reject_on is_finalized .pending
        updateExtrinsicFailed = .error .typeError :=
  ⟨rfl, rfl⟩

/-- C4 (amended). The exception stored in the Rejected outcome is the
value returned by the reject predicate on the matched update: whenever
the predicate returns an exception object on a pending future, the
future is rejected with exactly that object (for the default
predicate, this is the update's internal error); when the predicate
returns a non-exception truthy value, `set_exception` raises
`TypeError` instead. -/
theorem reject_sets_predicate_value
    (reject_on resolve_on : PyVal → Except PyErr PyVal) (u e : PyVal)
    (hr : reject_on u = .ok e) (he : pyIsException e = true) :
    subscription_dyn reject_on resolve_on .pending u = .ok (.rejected e) := by
  unfold subscription_dyn
  rw [hr]
  simp [Bind.bind, Except.bind, pyTruthy_of_isException he, FutureState.done,
    set_exception_dyn, he]

/-- C4 witness: on an update carrying an internal connection error, the
default reject predicate returns that exception object and the future
is rejected with it. -/
theorem reject_sets_predicate_value_instance :
    default_reject_on updateConnError =
      .ok (.pyexc "Exception" "connection error")
    ∧ subscription_dyn default_reject_on is_finalized .pending updateConnError =
      .ok (.rejected (.pyexc "Exception" "connection error")) :=
  ⟨rfl, reject_sets_predicate_value default_reject_on is_finalized
    updateConnError (.pyexc "Exception" "connection error") rfl rfl⟩

/-- C6 (counterexample). The claim about the synthesized disconnect
update is refuted on two points: when the disconnect fires before any
status update was observed, `latest_result` is `None` and
`handle_disconnect` raises `AttributeError` instead of feeding a
well-formed update; and when an update with status `ready` is cached,
the synthesized update keeps status `ready` — its phase is not
`Error`. -/
theorem handle_disconnect_claim_refuted :
    handle_disconnect .pynone = .error (.attributeError "get")
    ∧ result_status_str (handle_disconnect latestReady) = "ready"
    ∧ result_status_str (handle_disconnect latestReady) ≠ "Error" :=
  ⟨rfl, rfl, by decide⟩

/-- C6 (amended). When a status update has been cached, the watchdog
synthesizes a well-formed update whose `events` and `status` are
copied from the cached update (with defaults `[]` and `future`), whose
`internalError` is a connection error and whose `txHash` is empty;
when the disconnect fires before any update was observed, the handler
raises `AttributeError` instead of feeding an update. -/
theorem handle_disconnect_synthesis (fs : List (String × PyVal)) :
    handle_disconnect (.pydict fs) =
      .ok (.pydict
        [("events", (fs.lookup "events").getD (.pylist [])),
         ("internalError", .pyexc "Exception" "connection error"),
         ("status", (fs.lookup "status").getD (.pystr "future")),
         ("txHash", .pystr "")])
    ∧ handle_disconnect .pynone = .error (.attributeError "get") :=
  ⟨rfl, rfl⟩

/-- C7. With a cached update carrying no failure flags, the disconnect
path does not reject the submission: evaluating the default reject
predicate on the synthesized update raises `KeyError('isError')`
(the synthesized dictionary has no `isError` key, which `is_error`
subscripts), so the callback raises and the future stays pending —
the code diverges from the documented rejection. -/
theorem disconnect_reject_keyerror :
    extrinsic_failed latestReady = .ok false
    ∧ is_error latestReady = .ok .pynone
    ∧ (do
        let synthesized ← handle_disconnect latestReady
        subscription_dyn default_reject_on is_finalized .pending synthesized) =
      .error (.keyError "isError") :=
  ⟨rfl, rfl, rfl⟩

/-! ## errorHandler.py — the dispatch-error translator

`ErrorHandler.get_extrinsic_error` reads
`extrinsic_result.get('dispatchError', None)`; when the result is
truthy and its `isModule` field is truthy it fetches `asModule` and,
inside a bare `try`/`except`, evaluates
`module_error['registry'].find_meta_error(module_error)` — on any
error in that lookup it returns the raw `error_event`.  The metadata
registry is an external collaborator, so the lookup call is a
parameter `find_meta_error` (which may itself raise); the `registry`
subscript stays explicit because its `KeyError` is also caught by the
`try`.  Only the lookup is guarded: the `isModule` and `asModule`
subscripts and the initial `.get` are outside the `try`. -/

/-- `ErrorHandler.get_extrinsic_error`, parametric in the registry
lookup. -/
def get_extrinsic_error (find_meta_error : PyVal → Except PyErr PyVal)
    (extrinsic_result : PyVal) : Except PyErr PyVal := do
  let error_event ← pyGet extrinsic_result "dispatchError" .pynone
  if pyTruthy error_event then do
    let is_module ← getItem error_event "isModule"
    if pyTruthy is_module then do
      let module_error ← getItem error_event "asModule"
      match (do
          let _registry ← getItem module_error "registry"
          find_meta_error module_error : Except PyErr PyVal) with
      | .ok translated => pure translated
      | .error _ => pure error_event
    else
      pure (if pyTruthy error_event then error_event else .pynone)
  else
    pure (if pyTruthy error_event then error_event else .pynone)

/-! ## chain.py — `submit_signed_tx` control flow

The observable resource events of one call to `submit_signed_tx`,
given how the awaited promise completes.  The source, in order:
fetches the api, raises `SubscriptionsNotSupportedError` when
`api.has_subscriptions` is false, builds the promise, calls
`tx.subscribe(callback)`, registers `handle_disconnect` with
`api.rpc.websocket_disconnect_event`, then `try: return await promise
/ except Exception as e: raise ErrorHandler.get_extrinsic_error(e) or
e / finally: unsubscribe();
api.rpc.remove_websocket_disconnect_event(handle_disconnect)`.  The
`finally` clause runs on a normal return, on a raise from the `try` or
`except` blocks, and on cancellation of the await (which, being a
`BaseException`, is not caught by `except Exception`). -/

/-- A resource-affecting step of `submit_signed_tx`, in the order the
call performs them. -/
inductive Effect where
  | subscribed
  | registeredDisconnect
  | unsubscribed
  | removedDisconnect
  deriving Repr, DecidableEq

/-- How the awaited promise completes: with a value, with a raised
exception (a rejection or the timeout error), or by the caller
abandoning the wait. -/
inductive AwaitResult where
  | value (v : PyVal)
  | raised (e : PyVal)
  | abandoned

/-- How the `submit_signed_tx` call itself completes. -/
inductive SubmitOutcome where
  | returned (v : PyVal)
  | raisedValue (e : PyVal)
  | raisedErr (e : PyErr)
  | cancelled

/-- The `except` clause `raise ErrorHandler.get_extrinsic_error(e) or
e`: the translated error when the translator returns a truthy value,
`e` itself when it returns a falsy one, and the translator's own
Python error when it raises (with an exception object as input, its
`.get` attribute access raises). -/
def submit_reraise (find_meta_error : PyVal → Except PyErr PyVal)
    (e : PyVal) : SubmitOutcome :=
  match get_extrinsic_error find_meta_error e with
  | .ok translated =>
    if pyTruthy translated then .raisedValue translated else .raisedValue e
  | .error err => .raisedErr err

/-- The outcome and the ordered resource effects of one
`submit_signed_tx` call, as a function of the transport capability
flag and of how the awaited promise completes. -/
def submit_signed_tx_trace (find_meta_error : PyVal → Except PyErr PyVal)
    (has_subscriptions : Bool) (await_result : AwaitResult) :
    SubmitOutcome × List Effect :=
  if has_subscriptions then
    let opened := [Effect.subscribed, Effect.registeredDisconnect]
    let cleanup := [Effect.unsubscribed, Effect.removedDisconnect]
    match await_result with
    | .value v => (.returned v, opened ++ cleanup)
    | .raised e => (submit_reraise find_meta_error e, opened ++ cleanup)
    | .abandoned => (.cancelled, opened ++ cleanup)
  else
    (.raisedErr .subscriptionsNotSupportedError, [])

/-- C5. On every completion path of `submit_signed_tx` after the
subscription is opened — value returned, exception raised (rejection
or timeout, whether or not the translator itself raises while
re-raising), or the await abandoned — the unsubscribe function is
invoked exactly once and the disconnect handler removed exactly once,
after the subscribe and registration steps. -/
theorem submit_cleanup_exactly_once
    (find_meta_error : PyVal → Except PyErr PyVal)
    (await_result : AwaitResult) :
    (submit_signed_tx_trace find_meta_error true await_result).2 =
      [.subscribed, .registeredDisconnect, .unsubscribed, .removedDisconnect]
    ∧ ((submit_signed_tx_trace find_meta_error true await_result).2.count
        .unsubscribed = 1)
    ∧ ((submit_signed_tx_trace find_meta_error true await_result).2.count
        .removedDisconnect = 1) := by
  cases await_result <;> exact ⟨rfl, rfl, rfl⟩

/-- C8. When the active transport reports that it does not support
live subscriptions, `submit_signed_tx` raises
`SubscriptionsNotSupportedError` with no subscription opened and no
disconnect handler registered (and no other effect at all — in
particular no polling fallback). -/
theorem submit_capability_error_first
    (find_meta_error : PyVal → Except PyErr PyVal)
    (await_result : AwaitResult) :
    submit_signed_tx_trace find_meta_error false await_result =
      (.raisedErr .subscriptionsNotSupportedError, [])
    ∧ Effect.subscribed ∉
        (submit_signed_tx_trace find_meta_error false await_result).2
    ∧ Effect.registeredDisconnect ∉
        (submit_signed_tx_trace find_meta_error false await_result).2 := by
  exact ⟨rfl, by simp [submit_signed_tx_trace], by simp [submit_signed_tx_trace]⟩

/-- C9 (counterexample). The claim that the translator never raises a
secondary error is refuted: `chain.py` invokes the translator on the
caught exception object itself, whose `.get` attribute access raises
`AttributeError`; and on a result whose truthy `dispatchError`
dictionary lacks the `isModule` key, the unguarded subscript raises
`KeyError` — only the registry lookup sits inside the `try`. -/
theorem get_extrinsic_error_no_raise_refuted :
    get_extrinsic_error (fun _ => .ok .pynone) (.pyexc "Exception" "boom") =
      .error (.attributeError "get")
    ∧ get_extrinsic_error (fun _ => .ok .pynone)
        (.pydict [("dispatchError", .pydict [("code", .pybool true)])]) =
      .error (.keyError "isModule") :=
  ⟨rfl, rfl⟩

/-- C9 (amended). On a result whose `dispatchError` is a truthy
module-flagged error, the translator returns normally whatever the
registry lookup does: the translated meta error when the lookup
succeeds, and the raw structured error unchanged when the lookup
(including the `registry` subscript) raises for any reason; a truthy
error without a module flag passes through verbatim, and an absent
`dispatchError` yields `None`.  The translator can however itself
raise on inputs outside these shapes (see the counterexample): only
the registry lookup is guarded. -/
theorem get_extrinsic_error_guarded
    (find_meta_error : PyVal → Except PyErr PyVal)
    (module_error detail : PyVal) :
    get_extrinsic_error find_meta_error
        (.pydict [("dispatchError",
          .pydict [("isModule", .pybool true), ("asModule", module_error)])]) =
      .ok (match (do
            let _registry ← getItem module_error "registry"
            find_meta_error module_error : Except PyErr PyVal) with
          | .ok translated => translated
          | .error _ =>
            .pydict [("isModule", .pybool true), ("asModule", module_error)])
    ∧ get_extrinsic_error find_meta_error
        (.pydict [("dispatchError",
          .pydict [("isModule", .pybool false), ("detail", detail)])]) =
      .ok (.pydict [("isModule", .pybool false), ("detail", detail)])
    ∧ get_extrinsic_error find_meta_error (.pydict []) = .ok .pynone := by
  refine ⟨?_, rfl, rfl⟩
  have key : get_extrinsic_error find_meta_error
      (.pydict [("dispatchError",
        .pydict [("isModule", .pybool true), ("asModule", module_error)])]) =
    match (do
        let _registry ← getItem module_error "registry"
        find_meta_error module_error : Except PyErr PyVal) with
    | .ok translated => .ok translated
    | .error _ =>
      .ok (.pydict [("isModule", .pybool true), ("asModule", module_error)]) := rfl
  rw [key]
  cases (do
      let _registry ← getItem module_error "registry"
      find_meta_error module_error : Except PyErr PyVal) with
  | ok translated => rfl
  | error err => rfl

/-! ## service.py — the configuration store

`ConfigService.get(key, default)` first tests `key not in cls._config`
and raises (`BlockchainApiMissingError` for the key `api`, a generic
`Exception` otherwise); only for a present key does it reach `return
cls._config.get(key, default)`.  The class-level `_config` dictionary
is the explicit first argument here. -/

namespace ConfigService

/-- `ConfigService.get`. -/
def get (config : List (String × PyVal)) (key : String)
    (default_value : PyVal) : Except PyErr PyVal :=
  if (config.lookup key).isNone then
    if key = "api" then .error .blockchainApiMissingError
    else .error (.genericNotConfiguredError key)
  else .ok ((config.lookup key).getD default_value)

end ConfigService

/-- C10. For every key absent from the configuration store,
`ConfigService.get` raises — `BlockchainApiMissingError` when the key
is `api` and a generic error otherwise — rather than returning the
supplied default; for a present key the stored value is returned, and
in every case the result is independent of the default argument. -/
theorem config_get_never_default (config : List (String × PyVal))
    (key : String) (d1 d2 : PyVal) :
    (config.lookup key = none →
      ConfigService.get config key d1 =
        .error (if key = "api" then .blockchainApiMissingError
                else .genericNotConfiguredError key))
    ∧ (∀ v, config.lookup key = some v →
        ConfigService.get config key d1 = .ok v)
    ∧ ConfigService.get config key d1 = ConfigService.get config key d2 := by
  refine ⟨?_, ?_, ?_⟩
  · intro h
    unfold ConfigService.get
    rw [h]
    show (if key = "api" then _ else _) = _
    split <;> rfl
  · intro v h
    unfold ConfigService.get
    rw [h]
    rfl
  · cases h : config.lookup key <;> unfold ConfigService.get <;> rw [h] <;> rfl

/-- C10 witness: on an empty store, the key `api` raises the
api-missing error and another key raises the generic error, while a
present key returns its stored value, not the default. -/
theorem config_get_never_default_instance :
    ConfigService.get [] "api" .pynone = .error .blockchainApiMissingError
    ∧ ConfigService.get [] "other" .pynone =
        .error (.genericNotConfiguredError "other")
    ∧ ConfigService.get [("x", .pybool true)] "x" .pynone =
        .ok (.pybool true) := by
  refine ⟨?_, ?_, ?_⟩
  · exact (config_get_never_default [] "api" .pynone .pynone).1 rfl
  · exact (config_get_never_default [] "other" .pynone .pynone).1 rfl
  · exact (config_get_never_default [("x", .pybool true)] "x"
      .pynone .pynone).2.1 (.pybool true) rfl

end CordPy
